import Mathlib

/-!
Shallow embedding of the backup pipeline (src/backup.py, src/config.py,
src/notifier.py).

External effects (the environment, the config file load, the mysqldump
subprocess, the filesystem under the mount root, tar I/O, the S3 transfer
and the Telegram delivery) are modelled by a `World` of oracles; the temp
workspace is modelled as the list of file names it contains.  Python
`sys.exit(n)` (SystemExit, which `except Exception` does NOT catch) and an
ordinary exception are distinguished by the `Outcome` type.
-/

namespace BackuperModel

/-- Process environment: variable name to optionally present value. -/
def Env : Type := String → Option String

/-- Python truthiness of `os.environ.get(k)`: present and non-empty. -/
def truthy : Option String → Bool
  | some s => !(s == "")
  | none => false

/-- Mirrors class S3Config (src/config.py). -/
structure S3Config where
  endpoint : String
  bucket_name : String
  region : String
  enabled : Bool
deriving DecidableEq

/-- Mirrors class DatabaseConfig (src/config.py). -/
structure DatabaseConfig where
  enabled : Bool
  container_name : String
  db_user : String
  dump_filename : String
deriving DecidableEq

/-- Mirrors class TelegramConfig (src/config.py). -/
structure TelegramConfig where
  enabled : Bool
  chat_id : String
deriving DecidableEq

/-- Mirrors class BackupConfig (src/config.py). -/
structure BackupConfig where
  s3 : S3Config
  database : DatabaseConfig
  telegram : TelegramConfig
  targets : List String
deriving DecidableEq

/-- Python os.path.join for the shapes arising in backup.py: an absolute
second component wins; otherwise a separator is inserted unless the first
component is empty or already ends in one. -/
def osPathJoin (a b : String) : String :=
  if b.toList.head? == some '/' then b
  else if a.toList == [] || a.toList.getLast? == some '/' then a ++ b
  else a ++ "/" ++ b

/-- Python str.lstrip with the character set "./" (backup.py line 123):
drops every leading character that is '.' or '/'. -/
def lstripDotSlash (s : String) : String :=
  String.mk (s.toList.dropWhile (fun c => c == '.' || c == '/'))

/-- Python os.path.basename: the component after the last separator. -/
def basename (p : String) : String :=
  (p.splitOn "/").getLastD p

/-- How _create_archive locates a target on disk (backup.py line 123):
os.path.join(mount_root, target.lstrip("./")). -/
def resolveTarget (mount_root target : String) : String :=
  osPathJoin mount_root (lstripDotSlash target)

/-- Result of a Python code region: normal value, ordinary exception
(caught by `except Exception`), or SystemExit from sys.exit(n) (NOT caught
by `except Exception`; `finally` blocks still run). -/
inductive Outcome (α : Type) where
  | ok : α → Outcome α
  | exn : String → Outcome α
  | exit : Nat → Outcome α
deriving DecidableEq

/-- Mirrors class File (src/backup.py); size_mb as an exact rational. -/
structure File where
  path : String
  name : String
  size_mb : ℚ
deriving DecidableEq

/-- Outcome of loading and validating the YAML config in _load_config /
pydantic: file missing, file invalid, or a parsed BackupConfig. -/
inductive ConfigLoad where
  | missing
  | invalid
  | ok (cfg : BackupConfig)

/-- Oracles for every external effect of one run. -/
structure World where
  env : String → Option String
  configLoad : ConfigLoad
  dumpOk : Bool
  pathExists : String → Bool
  archiveOk : Bool
  archiveErr : String
  archiveSize : Nat
  uploadOk : Bool
  notifyDeliveryOk : Bool
  timestamp : String

/-- One override slot of Backuper.__init__ (src/backup.py lines 30-41):
`if os.environ.get(key): field = os.environ.get(key)` — the value replaces
the file-derived one only when present AND non-empty (Python truthiness). -/
def overrideField (env : Env) (key old : String) : String :=
  match env key with
  | some v => if v == "" then old else v
  | none => old

/-- The environment overrides applied in Backuper.__init__. -/
def applyOverrides (env : Env) (cfg : BackupConfig) : BackupConfig :=
  BackupConfig.mk
    (S3Config.mk (overrideField env "S3_ENDPOINT" cfg.s3.endpoint)
      (overrideField env "S3_BUCKET_NAME" cfg.s3.bucket_name)
      (overrideField env "S3_REGION" cfg.s3.region)
      cfg.s3.enabled)
    (DatabaseConfig.mk cfg.database.enabled
      (overrideField env "DB_HOST" cfg.database.container_name)
      cfg.database.db_user
      cfg.database.dump_filename)
    (TelegramConfig.mk cfg.telegram.enabled
      (overrideField env "TELEGRAM_CHAT_ID" cfg.telegram.chat_id))
    cfg.targets

/-- Name of the transient credential file (backup.py line 76). -/
def authFileName : String := "mysql_auth.cnf"

/-- Observable behaviour of the notifier: texts POSTed to the messaging
API and warnings printed. -/
structure NotifyTrace where
  posts : List String
  warns : Nat
deriving DecidableEq

/-- TelegramNotifier._should_send (src/notifier.py lines 42-48), paired
with the number of warnings it prints: disabled is silent; enabled with a
falsy token (absent or empty) warns; otherwise send. -/
def should_send (cfg : TelegramConfig) (token : Option String) : Bool × Nat :=
  if !cfg.enabled then (false, 0)
  else if !(truthy token) then (false, 1)
  else (true, 0)

/-- The failure message template of send_error (src/notifier.py). -/
def errorMessage (error_message : String) : String :=
  "❌ <b>Backup Failed!</b>\n\n⚠️ <b>Error:</b>\n<pre>" ++ error_message ++ "</pre>"

def twoDigits (n : Nat) : String :=
  if n < 10 then "0" ++ toString n else toString n

/-- Fixed-point rendering with two decimals, standing in for Python
percent-.2f formatting of the float size (IEEE tie behaviour abstracted). -/
def formatFixed2 (q : ℚ) : String :=
  let c : Int := round (q * 100)
  let s := if c < 0 then "-" else ""
  s ++ toString (c.natAbs / 100) ++ "." ++ twoDigits (c.natAbs % 100)

/-- The success message template of send_success (src/notifier.py). -/
def successMessage (archive_name : String) (file_size_mb : ℚ) : String :=
  "✅ <b>Backup Successful!</b>\n\n📦 <b>File:</b> " ++ archive_name ++
  "\n💾 <b>Size:</b> " ++ formatFixed2 file_size_mb ++
  " MB\n☁️ <b>Storage:</b> Cloudflare R2"

/-- TelegramNotifier.send_error: one POST attempt when _should_send allows
it; a delivery failure inside _send is swallowed, so the trace is the same
either way. -/
def send_error (cfg : TelegramConfig) (token : Option String) (e : String) : NotifyTrace :=
  match should_send cfg token with
  | (true, w) => NotifyTrace.mk [errorMessage e] w
  | (false, w) => NotifyTrace.mk [] w

/-- TelegramNotifier.send_success, same shape as send_error. -/
def send_success (cfg : TelegramConfig) (token : Option String)
    (archive_name : String) (file_size_mb : ℚ) : NotifyTrace :=
  match should_send cfg token with
  | (true, w) => NotifyTrace.mk [successMessage archive_name file_size_mb] w
  | (false, w) => NotifyTrace.mk [] w

/-- Result of Backuper._create_db_dump: its outcome (dump file path or
none), the temp-workspace contents on return, and whether the external
dump command was invoked. -/
structure DumpResult where
  outcome : Outcome (Option String)
  files : List String
  cmdInvoked : Bool
deriving DecidableEq

/-- Backuper._create_db_dump (src/backup.py lines 68-107).  Disabled: do
nothing.  Enabled: write the credential file, open the dump file for
writing, run mysqldump; on non-zero exit the except block calls
sys.exit(1); the finally block deletes the credential file on every path. -/
def create_db_dump (w : World) (temp_dir : String) (db_config : DatabaseConfig)
    (files : List String) : DumpResult :=
  if !db_config.enabled then DumpResult.mk (Outcome.ok none) files false
  else
    let dump_file := osPathJoin temp_dir db_config.dump_filename
    let files1 := (files.insert authFileName).insert db_config.dump_filename
    let filesF := files1.erase authFileName
    if w.dumpOk then DumpResult.mk (Outcome.ok (some dump_file)) filesF true
    else DumpResult.mk (Outcome.exit 1) filesF true

/-- Result of Backuper._create_archive: outcome, workspace contents, and
the entry names added to the tar archive. -/
structure ArchiveResult where
  outcome : Outcome File
  files : List String
  entries : List String
deriving DecidableEq

/-- Entry contributed by the dump file: its base name (backup.py line 119). -/
def dumpEntries : Option String → List String
  | some d => [basename d]
  | none => []

/-- Backuper._create_archive (src/backup.py lines 109-133).  An I/O
failure raises an ordinary exception; otherwise the archive holds the dump
(under its base name) plus every target whose resolved path exists, each
under its configured name; missing targets only print a warning.  The
reported size is the byte size over 1024*1024. -/
def create_archive (w : World) (temp_dir mount_root : String) (targets : List String)
    (dump_file : Option String) (files : List String) : ArchiveResult :=
  let archive_name := "backup_" ++ w.timestamp ++ ".tar.gz"
  let archive_path := osPathJoin temp_dir archive_name
  if !w.archiveOk then ArchiveResult.mk (Outcome.exn w.archiveErr) files []
  else
    let entries := dumpEntries dump_file ++
      targets.filter (fun t => w.pathExists (resolveTarget mount_root t))
    let size_mb : ℚ := (w.archiveSize : ℚ) / (1024 * 1024)
    ArchiveResult.mk (Outcome.ok (File.mk archive_path archive_name size_mb))
      (files.insert archive_name) entries

/-- One s3.upload_file call: bucket, object key, endpoint, region. -/
structure UploadCall where
  bucket : String
  key : String
  endpoint : String
  region : String
deriving DecidableEq

/-- Backuper._upload_to_s3 (src/backup.py lines 135-155).  Disabled
storage is a logged no-op; otherwise one attempt is made and a transfer
failure is turned into sys.exit(1). -/
def upload_to_s3 (w : World) (file : File) (s3_config : S3Config) :
    Outcome Unit × List UploadCall :=
  if !s3_config.enabled then (Outcome.ok (), [])
  else
    let call := UploadCall.mk s3_config.bucket_name file.name s3_config.endpoint s3_config.region
    if w.uploadOk then (Outcome.ok (), [call]) else (Outcome.exit 1, [call])

/-- Removes each name of the first list from the directory contents. -/
def removeAll : List String → List String → List String
  | [], fs => fs
  | x :: xs, fs => removeAll xs (fs.erase x)

/-- Backuper._cleanup (src/backup.py lines 157-164): os.remove every entry
os.listdir reports in the temp dir. -/
def cleanup (files : List String) : List String := removeAll files files

/-- State of Backuper.Run when its finally block starts. -/
structure RunPre where
  exitCode : Nat
  files : List String
  uploads : List UploadCall
  posts : List String
  warns : Nat
  errNotified : List String
  archiveCalledWith : Option (Option String)
  dumpCmdInvoked : Bool
  entries : List String
deriving DecidableEq

/-- The try/except part of Backuper.Run (src/backup.py lines 45-57).
SystemExit from a stage propagates past `except Exception` with no
notification; an ordinary exception is caught, send_error runs, then
sys.exit(1).  errNotified records the texts handed to send_error. -/
def RunBody (w : World) (cfg : BackupConfig) (temp_dir mount_root : String)
    (st0 : List String) : RunPre :=
  match create_db_dump w temp_dir cfg.database st0 with
  | DumpResult.mk (Outcome.exit c) fs inv =>
      RunPre.mk c fs [] [] 0 [] none inv []
  | DumpResult.mk (Outcome.exn e) fs inv =>
      let nt := send_error cfg.telegram (w.env "TELEGRAM_BOT_TOKEN") e
      RunPre.mk 1 fs [] nt.posts nt.warns [e] none inv []
  | DumpResult.mk (Outcome.ok dumpOpt) fs inv =>
      match create_archive w temp_dir mount_root cfg.targets dumpOpt fs with
      | ArchiveResult.mk (Outcome.exit c) fs2 _ =>
          RunPre.mk c fs2 [] [] 0 [] (some dumpOpt) inv []
      | ArchiveResult.mk (Outcome.exn e) fs2 _ =>
          let nt := send_error cfg.telegram (w.env "TELEGRAM_BOT_TOKEN") e
          RunPre.mk 1 fs2 [] nt.posts nt.warns [e] (some dumpOpt) inv []
      | ArchiveResult.mk (Outcome.ok file) fs2 ents =>
          match upload_to_s3 w file cfg.s3 with
          | (Outcome.exit c, calls) =>
              RunPre.mk c fs2 calls [] 0 [] (some dumpOpt) inv ents
          | (Outcome.exn e, calls) =>
              let nt := send_error cfg.telegram (w.env "TELEGRAM_BOT_TOKEN") e
              RunPre.mk 1 fs2 calls nt.posts nt.warns [e] (some dumpOpt) inv ents
          | (Outcome.ok _, calls) =>
              let nt := send_success cfg.telegram (w.env "TELEGRAM_BOT_TOKEN")
                file.name file.size_mb
              RunPre.mk 0 fs2 calls nt.posts nt.warns [] (some dumpOpt) inv ents

/-- Observable result of one Backuper.Run, after the finally block. -/
structure RunResult where
  exitCode : Nat
  files : List String
  cleanups : Nat
  uploads : List UploadCall
  posts : List String
  warns : Nat
  errNotified : List String
  archiveCalledWith : Option (Option String)
  dumpCmdInvoked : Bool
  entries : List String
deriving DecidableEq

/-- Backuper.Run: the try/except body wrapped by the finally block, which
runs _cleanup exactly once on every path. -/
def Run (w : World) (cfg : BackupConfig) (temp_dir mount_root : String)
    (st0 : List String) : RunResult :=
  let p := RunBody w cfg temp_dir mount_root st0
  RunResult.mk p.exitCode (cleanup p.files) 1 p.uploads p.posts p.warns
    p.errNotified p.archiveCalledWith p.dumpCmdInvoked p.entries

/-- Result of the whole process: exit status and, when Run was reached,
its result. -/
structure MainResult where
  exitCode : Nat
  run : Option RunResult

/-- main (src/backup.py lines 166-169): construct the Backuper (config
load, overrides, notifier) and Run it.  A missing config file hits
sys.exit(1); an invalid one raises out of pydantic uncaught, which also
terminates the interpreter with a non-zero status. -/
def main (w : World) (temp_dir mount_root : String) (st0 : List String) : MainResult :=
  match w.configLoad with
  | ConfigLoad.missing => MainResult.mk 1 none
  | ConfigLoad.invalid => MainResult.mk 1 none
  | ConfigLoad.ok cfg =>
      let cfg2 := applyOverrides w.env cfg
      let r := Run w cfg2 temp_dir mount_root st0
      MainResult.mk r.exitCode (some r)

/-- The pipeline succeeds: dump needed implies dump ok, archive I/O ok,
upload needed implies upload ok. -/
def runOk (w : World) (cfg : BackupConfig) : Bool :=
  (!cfg.database.enabled || w.dumpOk) && w.archiveOk && (!cfg.s3.enabled || w.uploadOk)

/-! Concrete fixtures used by counterexamples and witnesses. -/

def s3Demo : S3Config := S3Config.mk "https://storage.example" "A" "auto" true

def dbDemo : DatabaseConfig := DatabaseConfig.mk true "mysql" "root" "db.sql"

def tgDemo : TelegramConfig := TelegramConfig.mk true "42"

def cfgDemo : BackupConfig := BackupConfig.mk s3Demo dbDemo tgDemo ["www"]

def cfgNoDb : BackupConfig :=
  BackupConfig.mk s3Demo (DatabaseConfig.mk false "mysql" "root" "db.sql") tgDemo ["www"]

def envTok : Env := fun k => if k == "TELEGRAM_BOT_TOKEN" then some "tok" else none

def wDumpFail : World :=
  World.mk envTok (ConfigLoad.ok cfgDemo) false (fun _ => true) true "io error" 1048576 true true "T"

def wArchiveFail : World :=
  World.mk envTok (ConfigLoad.ok cfgDemo) true (fun _ => true) false "disk full" 1048576 true true "T"

def wUploadFail : World :=
  World.mk envTok (ConfigLoad.ok cfgDemo) true (fun _ => true) true "io error" 1048576 false true "T"

def wAllOk : World :=
  World.mk envTok (ConfigLoad.ok cfgDemo) true (fun p => p == "/host_data/www") true "io error" 3145728 true true "T"

def wC6 : World :=
  World.mk envTok ConfigLoad.missing true (fun _ => true) true "" 1048576 true true "T"

def fC6 : File :=
  File.mk (osPathJoin "/tmp/backup" ("backup_" ++ wC6.timestamp ++ ".tar.gz"))
    ("backup_" ++ wC6.timestamp ++ ".tar.gz") ((wC6.archiveSize : ℚ) / (1024 * 1024))

def envEmptyBucket : Env := fun k => if k == "S3_BUCKET_NAME" then some "" else none

def env7 : Env := fun k =>
  if k == "S3_ENDPOINT" then some "E"
  else if k == "S3_BUCKET_NAME" then some "B"
  else if k == "S3_REGION" then some "R"
  else if k == "TELEGRAM_CHAT_ID" then some "C"
  else if k == "DB_HOST" then some "H"
  else if k == "TELEGRAM_BOT_TOKEN" then some "tok"
  else none

def w7 : World :=
  World.mk env7 (ConfigLoad.ok cfgDemo) true (fun _ => true) true "io error" 1048576 true true "T"

def w10good : World :=
  World.mk (fun _ => none) ConfigLoad.missing true (fun p => p == "/host_data/env") true "" 0 true true "T"

def w10bad : World :=
  World.mk (fun _ => none) ConfigLoad.missing true (fun p => p == "/host_data/.env") true "" 0 true true "T"

/-- Removing every listed name from the directory empties it. -/
theorem removeAll_self (l : List String) : removeAll l l = [] := by
  induction l with
  | nil => rfl
  | cons x xs ih => simpa [removeAll, List.erase_cons_head] using ih

/-- The cleanup step leaves no file behind. -/
theorem cleanup_eq_nil (fs : List String) : cleanup fs = [] := removeAll_self fs

/-- The body's exit code is decided exactly by the three stage oracles. -/
theorem RunBody_exitCode (w : World) (cfg : BackupConfig) (td mr : String)
    (st0 : List String) :
    (RunBody w cfg td mr st0).exitCode = if runOk w cfg then 0 else 1 := by
  unfold RunBody create_db_dump create_archive upload_to_s3 runOk
  cases cfg.database.enabled <;> cases w.dumpOk <;> cases w.archiveOk <;>
    cases cfg.s3.enabled <;> cases w.uploadOk <;> simp

/-- Run's exit code is decided exactly by the three stage oracles. -/
theorem Run_exitCode (w : World) (cfg : BackupConfig) (td mr : String)
    (st0 : List String) :
    (Run w cfg td mr st0).exitCode = if runOk w cfg then 0 else 1 :=
  RunBody_exitCode w cfg td mr st0

/-- Every upload call of a run targets the configured bucket. -/
theorem Run_uploads_bucket (w : World) (cfg : BackupConfig) (td mr : String)
    (st0 : List String) :
    ∀ c ∈ (Run w cfg td mr st0).uploads, c.bucket = cfg.s3.bucket_name := by
  unfold Run RunBody create_db_dump create_archive upload_to_s3
  cases cfg.database.enabled <;> cases w.dumpOk <;> cases w.archiveOk <;>
    cases cfg.s3.enabled <;> cases w.uploadOk <;> simp

/-- C1 counterexample: with the database enabled and the dump command
exiting non-zero, the run exits with status 1 and attempts no upload, but
ZERO failure messages are sent (neither a POST nor even a send_error
invocation), because sys.exit(1) inside _create_db_dump raises SystemExit,
which the `except Exception` clause of Run does not catch.  This refutes
the claim that one failure message containing the dump error text is sent. -/
theorem C1_counterexample :
    (Run wDumpFail cfgDemo "/tmp/backup" "/host_data" []).exitCode = 1 ∧
    (Run wDumpFail cfgDemo "/tmp/backup" "/host_data" []).uploads = [] ∧
    (Run wDumpFail cfgDemo "/tmp/backup" "/host_data" []).posts = [] ∧
    (Run wDumpFail cfgDemo "/tmp/backup" "/host_data" []).errNotified = [] :=
  ⟨rfl, rfl, rfl, rfl⟩

/-- C1 (amended): every fatal stage failure aborts forward progress,
cleans up the workspace and exits non-zero, but only an archive I/O
failure reaches the notifier with the error text; a dump-command failure
(no upload attempted, no notification) and an upload failure (no
notification) terminate the process directly via SystemExit, bypassing
the failure notification. -/
theorem C1_fatal_failure_policy (w : World) (cfg : BackupConfig) (td mr : String)
    (st0 : List String) :
    (cfg.database.enabled = true → w.dumpOk = false →
      (Run w cfg td mr st0).exitCode = 1 ∧ (Run w cfg td mr st0).uploads = [] ∧
      (Run w cfg td mr st0).posts = [] ∧ (Run w cfg td mr st0).errNotified = [] ∧
      (Run w cfg td mr st0).files = []) ∧
    ((cfg.database.enabled = false ∨ w.dumpOk = true) → w.archiveOk = false →
      (Run w cfg td mr st0).exitCode = 1 ∧ (Run w cfg td mr st0).uploads = [] ∧
      (Run w cfg td mr st0).errNotified = [w.archiveErr] ∧
      (Run w cfg td mr st0).files = []) ∧
    ((cfg.database.enabled = false ∨ w.dumpOk = true) → w.archiveOk = true →
      cfg.s3.enabled = true → w.uploadOk = false →
      (Run w cfg td mr st0).exitCode = 1 ∧ (Run w cfg td mr st0).posts = [] ∧
      (Run w cfg td mr st0).errNotified = [] ∧ (Run w cfg td mr st0).files = []) := by
  refine ⟨?_, ?_, ?_⟩
  · intro h1 h2
    simp [Run, RunBody, create_db_dump, h1, h2, cleanup_eq_nil]
  · intro h1 h2
    rcases h1 with h1 | h1
    · simp [Run, RunBody, create_db_dump, create_archive, h1, h2, cleanup_eq_nil]
    · cases hdb : cfg.database.enabled <;>
        simp [Run, RunBody, create_db_dump, create_archive, hdb, h1, h2, cleanup_eq_nil]
  · intro h1 h2 h3 h4
    rcases h1 with h1 | h1
    · simp [Run, RunBody, create_db_dump, create_archive, upload_to_s3,
        h1, h2, h3, h4, cleanup_eq_nil]
    · cases hdb : cfg.database.enabled <;>
        simp [Run, RunBody, create_db_dump, create_archive, upload_to_s3,
          hdb, h1, h2, h3, h4, cleanup_eq_nil]

/-- C1 witness: the amended policy instantiated at a failing dump, a
failing archive write and a failing upload. -/
theorem C1_fatal_failure_policy_witness :
    ((Run wDumpFail cfgDemo "/tmp/backup" "/host_data" []).exitCode = 1 ∧
     (Run wDumpFail cfgDemo "/tmp/backup" "/host_data" []).uploads = [] ∧
     (Run wDumpFail cfgDemo "/tmp/backup" "/host_data" []).posts = [] ∧
     (Run wDumpFail cfgDemo "/tmp/backup" "/host_data" []).errNotified = [] ∧
     (Run wDumpFail cfgDemo "/tmp/backup" "/host_data" []).files = []) ∧
    ((Run wArchiveFail cfgDemo "/tmp/backup" "/host_data" []).exitCode = 1 ∧
     (Run wArchiveFail cfgDemo "/tmp/backup" "/host_data" []).uploads = [] ∧
     (Run wArchiveFail cfgDemo "/tmp/backup" "/host_data" []).errNotified =
       [wArchiveFail.archiveErr] ∧
     (Run wArchiveFail cfgDemo "/tmp/backup" "/host_data" []).files = []) ∧
    ((Run wUploadFail cfgDemo "/tmp/backup" "/host_data" []).exitCode = 1 ∧
     (Run wUploadFail cfgDemo "/tmp/backup" "/host_data" []).posts = [] ∧
     (Run wUploadFail cfgDemo "/tmp/backup" "/host_data" []).errNotified = [] ∧
     (Run wUploadFail cfgDemo "/tmp/backup" "/host_data" []).files = []) :=
  ⟨(C1_fatal_failure_policy wDumpFail cfgDemo "/tmp/backup" "/host_data" []).1 rfl rfl,
   (C1_fatal_failure_policy wArchiveFail cfgDemo "/tmp/backup" "/host_data" []).2.1
     (Or.inr rfl) rfl,
   (C1_fatal_failure_policy wUploadFail cfgDemo "/tmp/backup" "/host_data" []).2.2
     (Or.inr rfl) rfl rfl rfl⟩

/-- C2: on every path through Run (success, any stage failure, SystemExit
or ordinary exception), the finally block runs _cleanup exactly once and
the temp workspace holds no file afterwards. -/
theorem C2_cleanup_always_runs (w : World) (cfg : BackupConfig) (td mr : String)
    (st0 : List String) :
    (Run w cfg td mr st0).cleanups = 1 ∧ (Run w cfg td mr st0).files = [] :=
  ⟨rfl, cleanup_eq_nil _⟩

/-- C3: with the database enabled, the transient credential file is gone
from the workspace when _create_db_dump returns, on the success path and
on the dump-command-failure path alike (the finally block deletes it). -/
theorem C3_credential_file_deleted (w : World) (td : String) (dbc : DatabaseConfig)
    (fs : List String) (hen : dbc.enabled = true) (hnd : fs.Nodup) :
    authFileName ∉ (create_db_dump w td dbc fs).files := by
  have h2 : ((fs.insert authFileName).insert dbc.dump_filename).Nodup :=
    (hnd.insert).insert
  unfold create_db_dump
  cases w.dumpOk <;> simp [hen, h2.not_mem_erase]

/-- C3 witness: concrete enabled database config on an empty workspace. -/
theorem C3_credential_file_deleted_witness :
    authFileName ∉ (create_db_dump wDumpFail "/tmp/backup" dbDemo []).files :=
  C3_credential_file_deleted wDumpFail "/tmp/backup" dbDemo [] rfl List.nodup_nil

/-- C4: with the database disabled, _create_db_dump writes no file,
invokes no dump command, returns the non-error outcome None, and Run then
calls the archive stage with no dump file. -/
theorem C4_db_disabled_noop (w : World) (cfg : BackupConfig) (td mr : String)
    (st0 : List String) (h : cfg.database.enabled = false) :
    (create_db_dump w td cfg.database st0).outcome = Outcome.ok none ∧
    (create_db_dump w td cfg.database st0).files = st0 ∧
    (create_db_dump w td cfg.database st0).cmdInvoked = false ∧
    (Run w cfg td mr st0).archiveCalledWith = some none := by
  refine ⟨?_, ?_, ?_, ?_⟩
  · simp [create_db_dump, h]
  · simp [create_db_dump, h]
  · simp [create_db_dump, h]
  · unfold Run RunBody create_db_dump create_archive upload_to_s3
    cases w.archiveOk <;> cases cfg.s3.enabled <;> cases w.uploadOk <;> simp [h]

/-- C4 witness: the disabled-database fixture. -/
theorem C4_db_disabled_noop_witness :
    (create_db_dump wAllOk "/tmp/backup" cfgNoDb.database []).outcome = Outcome.ok none ∧
    (create_db_dump wAllOk "/tmp/backup" cfgNoDb.database []).files = [] ∧
    (create_db_dump wAllOk "/tmp/backup" cfgNoDb.database []).cmdInvoked = false ∧
    (Run wAllOk cfgNoDb "/tmp/backup" "/host_data" []).archiveCalledWith = some none :=
  C4_db_disabled_noop wAllOk cfgNoDb "/tmp/backup" "/host_data" [] rfl

/-- C5: when the archive write itself succeeds, the stage never fails
because of a missing target: every target whose resolved path exists
appears in the archive under its configured name, and a target whose
resolved path is absent contributes no entry (any occurrence of it among
the entries could only be the dump's base name). -/
theorem C5_missing_targets_skipped (w : World) (td mr : String) (targets : List String)
    (dump_file : Option String) (fs : List String) (h : w.archiveOk = true) :
    (∃ f, (create_archive w td mr targets dump_file fs).outcome = Outcome.ok f) ∧
    (∀ t, t ∈ targets → w.pathExists (resolveTarget mr t) = true →
      t ∈ (create_archive w td mr targets dump_file fs).entries) ∧
    (∀ t, t ∈ targets → w.pathExists (resolveTarget mr t) = false →
      t ∈ (create_archive w td mr targets dump_file fs).entries →
      t ∈ dumpEntries dump_file) := by
  refine ⟨?_, ?_, ?_⟩
  · refine ⟨File.mk (osPathJoin td ("backup_" ++ w.timestamp ++ ".tar.gz"))
      ("backup_" ++ w.timestamp ++ ".tar.gz") ((w.archiveSize : ℚ) / (1024 * 1024)), ?_⟩
    simp [create_archive, h]
  · intro t ht hp
    simp [create_archive, h, List.mem_filter]
    exact Or.inr ⟨ht, hp⟩
  · intro t ht hp hmem
    simp [create_archive, h, List.mem_filter] at hmem
    rcases hmem with hd | ⟨_, hp2⟩
    · exact hd
    · exact absurd hp2 (by simp [hp])

/-- C5 witness: one existing and one missing target; the existing one is
archived under its configured name, the missing one yields no entry. -/
theorem C5_missing_targets_skipped_witness :
    "www" ∈ (create_archive wAllOk "/tmp/backup" "/host_data" ["www", "nope"] none []).entries ∧
    "nope" ∉ (create_archive wAllOk "/tmp/backup" "/host_data" ["www", "nope"] none []).entries :=
  ⟨(C5_missing_targets_skipped wAllOk "/tmp/backup" "/host_data" ["www", "nope"] none []
      rfl).2.1 "www" (by simp) rfl,
   fun hm => by
     simpa [dumpEntries] using
       (C5_missing_targets_skipped wAllOk "/tmp/backup" "/host_data" ["www", "nope"] none []
         rfl).2.2 "nope" (by simp) rfl hm⟩

/-- C6: the size_mb of the artifact returned by _create_archive is the
archive's byte size divided by 1,048,576. -/
theorem C6_archive_size_megabytes (w : World) (td mr : String) (targets : List String)
    (dump_file : Option String) (fs : List String) (f : File)
    (h : (create_archive w td mr targets dump_file fs).outcome = Outcome.ok f) :
    f.size_mb = (w.archiveSize : ℚ) / 1048576 := by
  unfold create_archive at h
  cases hb : w.archiveOk <;> simp [hb] at h
  rw [← h]
  norm_num

/-- C6 witness: a 1,048,576-byte archive reports exactly one megabyte. -/
theorem C6_archive_size_megabytes_witness :
    fC6.size_mb = (wC6.archiveSize : ℚ) / 1048576 :=
  C6_archive_size_megabytes wC6 "/tmp/backup" "/host_data" [] none [] fC6 rfl

/-- C7 counterexample: S3_BUCKET_NAME is present in the environment with
the empty-string value, yet the file-derived bucket A is kept, because the
override test is Python truthiness, not presence.  This refutes the claim
that a present variable unconditionally replaces the configured value. -/
theorem C7_counterexample :
    envEmptyBucket "S3_BUCKET_NAME" = some "" ∧
    (applyOverrides envEmptyBucket cfgDemo).s3.bucket_name = "A" :=
  ⟨rfl, rfl⟩

/-- C7 (amended): every recognized override variable that is present with
a NON-EMPTY value replaces the corresponding file-derived setting, and
with a non-empty bucket override B every upload call of the run targets
bucket B. -/
theorem C7_env_overrides (env : Env) (cfg : BackupConfig) :
    (∀ v, env "S3_ENDPOINT" = some v → v ≠ "" →
      (applyOverrides env cfg).s3.endpoint = v) ∧
    (∀ v, env "S3_BUCKET_NAME" = some v → v ≠ "" →
      (applyOverrides env cfg).s3.bucket_name = v) ∧
    (∀ v, env "S3_REGION" = some v → v ≠ "" →
      (applyOverrides env cfg).s3.region = v) ∧
    (∀ v, env "TELEGRAM_CHAT_ID" = some v → v ≠ "" →
      (applyOverrides env cfg).telegram.chat_id = v) ∧
    (∀ v, env "DB_HOST" = some v → v ≠ "" →
      (applyOverrides env cfg).database.container_name = v) ∧
    (∀ (w : World) (td mr : String) (st0 : List String) (B : String),
      w.env = env → w.configLoad = ConfigLoad.ok cfg →
      env "S3_BUCKET_NAME" = some B → B ≠ "" →
      Option.all (fun r => r.uploads.all (fun c => c.bucket == B))
        (main w td mr st0).run = true) := by
  refine ⟨?_, ?_, ?_, ?_, ?_, ?_⟩
  · intro v hv hne; simp [applyOverrides, overrideField, hv, hne]
  · intro v hv hne; simp [applyOverrides, overrideField, hv, hne]
  · intro v hv hne; simp [applyOverrides, overrideField, hv, hne]
  · intro v hv hne; simp [applyOverrides, overrideField, hv, hne]
  · intro v hv hne; simp [applyOverrides, overrideField, hv, hne]
  · intro w td mr st0 B hwe hcl hB hne
    have hb : (applyOverrides w.env cfg).s3.bucket_name = B := by
      simp [applyOverrides, overrideField, hwe, hB, hne]
    simp only [main, hcl, Option.all]
    rw [List.all_eq_true]
    intro c hc
    have := Run_uploads_bucket w (applyOverrides w.env cfg) td mr st0 c hc
    simp [this, hb]

/-- C7 witness: a full set of non-empty overrides replaces every slot, and
the run's upload targets the overridden bucket B. -/
theorem C7_env_overrides_witness :
    (applyOverrides env7 cfgDemo).s3.endpoint = "E" ∧
    (applyOverrides env7 cfgDemo).s3.bucket_name = "B" ∧
    (applyOverrides env7 cfgDemo).s3.region = "R" ∧
    (applyOverrides env7 cfgDemo).telegram.chat_id = "C" ∧
    (applyOverrides env7 cfgDemo).database.container_name = "H" ∧
    Option.all (fun r => r.uploads.all (fun c => c.bucket == "B"))
      (main w7 "/tmp/backup" "/host_data" []).run = true :=
  ⟨(C7_env_overrides env7 cfgDemo).1 "E" rfl (by decide),
   (C7_env_overrides env7 cfgDemo).2.1 "B" rfl (by decide),
   (C7_env_overrides env7 cfgDemo).2.2.1 "R" rfl (by decide),
   (C7_env_overrides env7 cfgDemo).2.2.2.1 "C" rfl (by decide),
   (C7_env_overrides env7 cfgDemo).2.2.2.2.1 "H" rfl (by decide),
   (C7_env_overrides env7 cfgDemo).2.2.2.2.2 w7 "/tmp/backup" "/host_data" [] "B"
     rfl rfl rfl (by decide)⟩

/-- C8: the notifier posts nothing when disabled; posts nothing but warns
when enabled with the bot credential absent; and the delivery outcome of a
notification never changes Run's exit status. -/
theorem C8_notification_policy :
    (∀ (cfg : TelegramConfig) (token : Option String) (e : String),
      cfg.enabled = false → send_error cfg token e = NotifyTrace.mk [] 0) ∧
    (∀ (cfg : TelegramConfig) (token : Option String) (n : String) (s : ℚ),
      cfg.enabled = false → send_success cfg token n s = NotifyTrace.mk [] 0) ∧
    (∀ (cfg : TelegramConfig) (e : String),
      cfg.enabled = true → send_error cfg none e = NotifyTrace.mk [] 1) ∧
    (∀ (cfg : TelegramConfig) (n : String) (s : ℚ),
      cfg.enabled = true → send_success cfg none n s = NotifyTrace.mk [] 1) ∧
    (∀ (env : String → Option String) (cl : ConfigLoad) (dk : Bool)
      (pe : String → Bool) (ak : Bool) (ae : String) (asz : Nat)
      (uk b1 b2 : Bool) (ts : String) (cfg : BackupConfig) (td mr : String)
      (st0 : List String),
      (Run (World.mk env cl dk pe ak ae asz uk b1 ts) cfg td mr st0).exitCode =
      (Run (World.mk env cl dk pe ak ae asz uk b2 ts) cfg td mr st0).exitCode) := by
  refine ⟨?_, ?_, ?_, ?_, ?_⟩
  · intro cfg token e h; simp [send_error, should_send, h]
  · intro cfg token n s h; simp [send_success, should_send, h]
  · intro cfg e h; simp [send_error, should_send, truthy, h]
  · intro cfg n s h; simp [send_success, should_send, truthy, h]
  · intro env cl dk pe ak ae asz uk b1 b2 ts cfg td mr st0
    rw [Run_exitCode, Run_exitCode]
    rfl

/-- C8 witness: the hypothesised cases at concrete configurations. -/
theorem C8_notification_policy_witness :
    send_error (TelegramConfig.mk false "42") (some "tok") "boom" = NotifyTrace.mk [] 0 ∧
    send_success (TelegramConfig.mk false "42") (some "tok") "a.tar.gz" 1 = NotifyTrace.mk [] 0 ∧
    send_error (TelegramConfig.mk true "42") none "boom" = NotifyTrace.mk [] 1 ∧
    send_success (TelegramConfig.mk true "42") none "a.tar.gz" 1 = NotifyTrace.mk [] 1 :=
  ⟨C8_notification_policy.1 (TelegramConfig.mk false "42") (some "tok") "boom" rfl,
   C8_notification_policy.2.1 (TelegramConfig.mk false "42") (some "tok") "a.tar.gz" 1 rfl,
   C8_notification_policy.2.2.1 (TelegramConfig.mk true "42") "boom" rfl,
   C8_notification_policy.2.2.2.1 (TelegramConfig.mk true "42") "a.tar.gz" 1 rfl⟩

/-- C9: the process exits 0 exactly when the config loads and every
enabled stage (dump, archive, upload) succeeds; a missing or invalid
config, a dump failure, an archive I/O failure or an upload failure all
exit non-zero. -/
theorem C9_exit_codes (w : World) (td mr : String) (st0 : List String) :
    (main w td mr st0).exitCode = 0 ↔
      ∃ cfg, w.configLoad = ConfigLoad.ok cfg ∧
        runOk w (applyOverrides w.env cfg) = true := by
  cases hcl : w.configLoad with
  | missing => simp [main, hcl]
  | invalid => simp [main, hcl]
  | ok cfg =>
    simp only [main, hcl]
    rw [Run_exitCode]
    by_cases hr : runOk w (applyOverrides w.env cfg) = true
    · simp [hr]
    · simp [hr]

/-- C10: the archive stage locates a target by joining the mount root with
the target stripped of ALL leading dot and slash characters (a
character-set strip), so a dot-named target such as .env is looked up at
mount_root/env while it would be archived under its original name .env. -/
theorem C10_target_resolution :
    (∀ root t, resolveTarget root t =
      osPathJoin root (String.mk (t.toList.dropWhile (fun c => c == '.' || c == '/')))) ∧
    lstripDotSlash ".env" = "env" ∧
    lstripDotSlash "..data" = "data" ∧
    resolveTarget "/host_data" ".env" = "/host_data/env" ∧
    (create_archive w10good "/tmp/backup" "/host_data" [".env"] none []).entries = [".env"] ∧
    (create_archive w10bad "/tmp/backup" "/host_data" [".env"] none []).entries = [] :=
  ⟨fun root t => rfl, by decide, by decide, by decide, by decide, by decide⟩

end BackuperModel
